import Mathlib

/-!
Verification of the LangAI spaced-repetition core.

This file shallowly embeds the scheduling and streak logic of the
repository's two database providers:

* `src/lang-learning-app/db.ts` — the SQLite-backed provider
  (`updatePhraseReview`, `getTotalStats`);
* `src/unnamed/part_001` — the Supabase-backed provider for web
  (`updatePhraseReview`, `getTotalStats`).

JavaScript numbers are modelled as `ℚ` (the formulas use only `+`, `*`,
`max`, `Math.round` and decimal constants); timestamps and the integer
`interval` column as `ℤ`; calendar days for the streak computation as `ℤ`
day indices.  `Date.now()`, which `updatePhraseReview` reads internally,
is modelled as an explicit `now : ℤ` argument denoting the value of that
internal read.
-/

/-- A row of the `phrases` table (interface `PhraseRow` in
`src/lang-learning-app/db.ts`).  `ease_factor` is the SQLite `REAL`
column (modelled as `ℚ`), `interval` the `INTEGER` day count,
`next_review` and `created_at` epoch-millisecond timestamps. -/
structure PhraseRow where
  id : ℤ
  original : String
  translated : String
  pronunciation : String
  next_review : ℤ
  ease_factor : ℚ
  interval : ℤ
  created_at : ℤ
  deriving Repr, DecidableEq

/-- JavaScript `Math.round`: round half up, i.e. `⌊x + 0.5⌋`. -/
def jsRound (x : ℚ) : ℤ := ⌊x + 0.5⌋

/-- Milliseconds in a day, written as in the source:
`24 * 60 * 60 * 1000`. -/
def msPerDay : ℤ := 24 * 60 * 60 * 1000

/-- The per-row effect of `updatePhraseReview` in
`src/lang-learning-app/db.ts` (lines 308–357), applied to the row
fetched by `SELECT * FROM phrases WHERE id = ?`:

* interval: `if (quality < 3) interval = 1; else { if (interval === 1)
  interval = 1; else if (interval === 2) interval = 6; else interval =
  Math.round(interval * ease_factor); }` — the multiplication uses the
  ease factor before its own update, since the source mutates `interval`
  first;
* ease factor: `Math.max(1.3, ease_factor + (0.1 - (5 - quality) *
  (0.08 + (5 - quality) * 0.02)))`;
* `const nextReview = Date.now() + interval * 24 * 60 * 60 * 1000`,
  where `now` stands for the internal `Date.now()` read;
* the SQL `UPDATE` sets exactly the columns `next_review`,
  `ease_factor`, `interval`.

The source performs no runtime check on `quality` (its `1|2|3|4|5`
annotation is a static type only), so `quality` is an arbitrary `ℤ`
here and the function is total, with no error outcome. -/
def updatePhraseReviewRow (phrase : PhraseRow) (quality : ℤ) (now : ℤ) :
    PhraseRow :=
  let interval : ℤ :=
    if quality < 3 then 1
    else
      if phrase.interval = 1 then 1
      else if phrase.interval = 2 then 6
      else jsRound ((phrase.interval : ℚ) * phrase.ease_factor)
  let ease_factor : ℚ :=
    max 1.3
      (phrase.ease_factor +
        (0.1 - (5 - (quality : ℚ)) * (0.08 + (5 - (quality : ℚ)) * 0.02)))
  let nextReview : ℤ := now + interval * msPerDay
  { phrase with
      next_review := nextReview
      ease_factor := ease_factor
      interval := interval }

/-- The per-row effect of `updatePhraseReview` in `src/unnamed/part_001`
(lines 182–218), the Supabase provider, applied to the row fetched by
`.from('phrases').select('*').eq('id', id).single()`:

```
if (quality < 3) { interval = 1; }
else { if (interval === 1) interval = 1;
       else if (interval === 2) interval = 6;
       else interval = Math.round(interval * ease_factor); }
ease_factor = Math.max(1.3,
  ease_factor + (0.1 - (5 - quality) * (0.08 + (5 - quality) * 0.02)));
const nextReview = Date.now() + interval * 24 * 60 * 60 * 1000;
```
followed by `.update({ next_review, ease_factor, interval })`. -/
def updatePhraseReviewRowWeb (phrase : PhraseRow) (quality : ℤ) (now : ℤ) :
    PhraseRow :=
  let interval : ℤ :=
    if quality < 3 then 1
    else
      if phrase.interval = 1 then 1
      else if phrase.interval = 2 then 6
      else jsRound ((phrase.interval : ℚ) * phrase.ease_factor)
  let ease_factor : ℚ :=
    max 1.3
      (phrase.ease_factor +
        (0.1 - (5 - (quality : ℚ)) * (0.08 + (5 - (quality : ℚ)) * 0.02)))
  let nextReview : ℤ := now + interval * msPerDay
  { phrase with
      next_review := nextReview
      ease_factor := ease_factor
      interval := interval }

/-- The database-level `updatePhraseReview` of
`src/lang-learning-app/db.ts`: `SELECT * FROM phrases WHERE id = ?`; if
no row matches, return with no write (`if (phrases.length === 0)
return;`); otherwise compute the new values from `phrases[0]` and run
`UPDATE phrases SET next_review = ?, ease_factor = ?, interval = ?
WHERE id = ?`.  The table is modelled as a list of rows. -/
def updatePhraseReviewDB (table : List PhraseRow) (id : ℤ) (quality : ℤ)
    (now : ℤ) : List PhraseRow :=
  match table.filter (fun r => r.id == id) with
  | [] => table
  | p :: _ =>
    let p' := updatePhraseReviewRow p quality now
    table.map fun r =>
      if r.id == id then
        { r with
            next_review := p'.next_review
            ease_factor := p'.ease_factor
            interval := p'.interval }
      else r

/-- The current-streak loop of `getTotalStats` in
`src/lang-learning-app/db.ts` (lines 448–462).  `dates` is the result of
`SELECT DISTINCT date FROM user_stats` (distinct calendar days, modelled
as `ℤ` day indices) and `today` the day index of `new Date()`.  The
source loop is

```
for (let i = 0; i < dates.length; i++) {
  const checkDateStr = (today - i days);
  if (dates.some((d) => d.date === checkDateStr)) currentStreak++;
  else if (i > 0) break;
}
```

`streakAux dates today i streak` is the loop from index `i` with
accumulator `streak`. -/
def streakAux (dates : List ℤ) (today : ℤ) (i : ℕ) (streak : ℕ) : ℕ :=
  if i < dates.length then
    if dates.contains (today - i) then
      streakAux dates today (i + 1) (streak + 1)
    else if i > 0 then streak
    else streakAux dates today (i + 1) streak
  else streak
termination_by dates.length - i

/-- `currentStreak` of the SQLite provider: the loop above started at
`i = 0`, `currentStreak = 0`. -/
def currentStreak (dates : List ℤ) (today : ℤ) : ℕ :=
  streakAux dates today 0 0

/-- The current-streak loop of `getTotalStats` in `src/unnamed/part_001`
(lines 304–333), the Supabase provider.  `uniqueDays` is the set of
distinct dates; the loop is

```
for (let i = 0; i < dates.length; i++) {
  const checkDateStr = (today - i days);
  if (uniqueDays.has(checkDateStr)) currentStreak++;
  else if (i === 0 && !uniqueDays.has(checkDateStr)) continue;
  else break;
}
```

with `dates = Array.from(uniqueDays)`, so the bound is again the number
of distinct days. -/
def streakAuxWeb (dates : List ℤ) (today : ℤ) (i : ℕ) (streak : ℕ) : ℕ :=
  if i < dates.length then
    if dates.contains (today - i) then
      streakAuxWeb dates today (i + 1) (streak + 1)
    else if i = 0 ∧ ¬dates.contains (today - i) then
      streakAuxWeb dates today (i + 1) streak
    else streak
  else streak
termination_by dates.length - i

/-- `currentStreak` of the Supabase provider. -/
def currentStreakWeb (dates : List ℤ) (today : ℤ) : ℕ :=
  streakAuxWeb dates today 0 0

/-- A concrete stored phrase used to instantiate witnesses: ease factor
2.5, interval 10 days. -/
def samplePhrase : PhraseRow :=
  { id := 1
    original := "hola"
    translated := "hello"
    pronunciation := ""
    next_review := 0
    ease_factor := 2.5
    interval := 10
    created_at := 0 }

/-- A second concrete row differing from `samplePhrase` only outside
the scheduling fields. -/
def samplePhraseB : PhraseRow :=
  { samplePhrase with id := 2, original := "adios", translated := "bye" }

/-- C1: for every review update with a valid quality rating in
{1,2,3,4,5}, the new interval is computed by exactly these branches:
quality < 3 gives 1; otherwise previous interval 1 gives 1, previous
interval 2 gives 6, and anything else gives
`round(previousInterval * previousEaseFactor)`, the ease factor being
the one before this update. -/
theorem updatePhraseReview_interval_branches (p : PhraseRow) (q now : ℤ)
    (h1 : 1 ≤ q) (h5 : q ≤ 5) :
    (updatePhraseReviewRow p q now).interval =
      if q < 3 then 1
      else if p.interval = 1 then 1
      else if p.interval = 2 then 6
      else jsRound ((p.interval : ℚ) * p.ease_factor) := rfl

/-- Witness for C1 at `samplePhrase`, quality 4. -/
theorem updatePhraseReview_interval_branches_witness :
    (updatePhraseReviewRow samplePhrase 4 0).interval =
      if (4 : ℤ) < 3 then 1
      else if samplePhrase.interval = 1 then 1
      else if samplePhrase.interval = 2 then 6
      else jsRound ((samplePhrase.interval : ℚ) * samplePhrase.ease_factor) :=
  updatePhraseReview_interval_branches samplePhrase 4 0 (by norm_num)
    (by norm_num)

/-- C2 counterexample: a quality rating of 6 — outside {1,2,3,4,5} — is
not rejected by `updatePhraseReview`; the function has no runtime check
(the `1|2|3|4|5` restriction is a static TypeScript type) and the raw
value 6 flows through the full computation, producing ease factor 2.66
and interval 25 on `samplePhrase`.  The result moreover differs from
the quality-5 result (which gives ease 2.6), so the value is not
silently clamped into range either. -/
theorem updatePhraseReview_quality6_processed :
    (updatePhraseReviewRow samplePhrase 6 0).ease_factor = 2.66 ∧
    (updatePhraseReviewRow samplePhrase 6 0).interval = 25 ∧
    (updatePhraseReviewRow samplePhrase 6 0).ease_factor ≠
      (updatePhraseReviewRow samplePhrase 5 0).ease_factor := by
  refine ⟨?_, ?_, ?_⟩ <;>
    norm_num [samplePhrase, updatePhraseReviewRow, jsRound, msPerDay]

/-- C2 amended: `updatePhraseReview` performs no runtime validation of
`quality`; an out-of-range rating is processed, not rejected: quality 0
takes the ordinary failure branch (interval 1), and for any state with
ease factor ≥ 1.3 quality 6 produces an ease factor distinct from the
quality-5 one, so out-of-range input is neither rejected nor clamped. -/
theorem updatePhraseReview_no_runtime_quality_check (p : PhraseRow)
    (now : ℤ) (h : 1.3 ≤ p.ease_factor) :
    (updatePhraseReviewRow p 0 now).interval = 1 ∧
    (updatePhraseReviewRow p 6 now).ease_factor ≠
      (updatePhraseReviewRow p 5 now).ease_factor := by
  constructor
  · rfl
  · simp only [updatePhraseReviewRow]
    norm_num
    rw [max_eq_right (by linarith), max_eq_right (by linarith)]
    intro hcontra
    linarith

/-- Witness for C2's amended theorem at `samplePhrase`. -/
theorem updatePhraseReview_no_runtime_quality_check_witness :
    (updatePhraseReviewRow samplePhrase 0 0).interval = 1 ∧
    (updatePhraseReviewRow samplePhrase 6 0).ease_factor ≠
      (updatePhraseReviewRow samplePhrase 5 0).ease_factor :=
  updatePhraseReview_no_runtime_quality_check samplePhrase 0
    (by norm_num [samplePhrase])

/-- C3 (code bug): with activity exactly on yesterday and the day
before yesterday (`today = 0`, dates `{-1, -2}`, today itself absent),
both providers' streak computation returns 1, not the 2 the spec (and
the code's own comment "Allow missing today but break on other gaps")
intends: the loop runs only `dates.length` iterations, and the iteration
spent on the missing today truncates the walk before `today - 2` is
ever checked. -/
theorem currentStreak_missing_today_truncated :
    currentStreak [-1, -2] 0 = 1 ∧ currentStreakWeb [-1, -2] 0 = 1 := by
  constructor
  · simp [currentStreak, streakAux]
  · simp [currentStreakWeb, streakAuxWeb]

/-- C4 counterexample: the output of `updatePhraseReview` is not a
function of the stored state plus the quality alone — the current
instant is read internally (`Date.now()` at `db.ts` line 348), not
injected as an input.  Two calls on an identical stored phrase with
identical quality 3, whose internal clock reads differ by one day,
produce different `next_review` values. -/
theorem updatePhraseReview_reads_clock_internally :
    (updatePhraseReviewRow samplePhrase 3 0).next_review ≠
      (updatePhraseReviewRow samplePhrase 3 86400000).next_review := by
  norm_num [samplePhrase, updatePhraseReviewRow, jsRound, msPerDay]

/-- C4 amended: the scheduling transition is deterministic given the
stored state, the quality, and the value the internal `Date.now()` read
yields: the updated ease factor, interval, and next-review timestamp
depend only on the state's `ease_factor` and `interval` fields, the
quality, and that clock value — two calls observing identical values of
these produce identical scheduling output.  (The instant is, however,
read inside the function rather than injected as a parameter.) -/
theorem updatePhraseReview_deterministic_given_clock (p1 p2 : PhraseRow)
    (q now : ℤ) (he : p1.ease_factor = p2.ease_factor)
    (hi : p1.interval = p2.interval) :
    (updatePhraseReviewRow p1 q now).ease_factor =
        (updatePhraseReviewRow p2 q now).ease_factor ∧
    (updatePhraseReviewRow p1 q now).interval =
        (updatePhraseReviewRow p2 q now).interval ∧
    (updatePhraseReviewRow p1 q now).next_review =
        (updatePhraseReviewRow p2 q now).next_review := by
  simp [updatePhraseReviewRow, he, hi]

/-- Witness for C4's amended theorem: two distinct rows sharing only
scheduling fields. -/
theorem updatePhraseReview_deterministic_given_clock_witness :
    (updatePhraseReviewRow samplePhrase 4 7).ease_factor =
        (updatePhraseReviewRow samplePhraseB 4 7).ease_factor ∧
    (updatePhraseReviewRow samplePhrase 4 7).interval =
        (updatePhraseReviewRow samplePhraseB 4 7).interval ∧
    (updatePhraseReviewRow samplePhrase 4 7).next_review =
        (updatePhraseReviewRow samplePhraseB 4 7).next_review :=
  updatePhraseReview_deterministic_given_clock samplePhrase samplePhraseB
    4 7 rfl rfl

/-- C5: for every review update with a valid quality rating, pass or
fail, the new ease factor is
`max(1.3, previousEaseFactor + (0.1 - (5 - quality) * (0.08 + (5 - quality) * 0.02)))`,
and in particular is at least 1.3. -/
theorem updatePhraseReview_ease_formula (p : PhraseRow) (q now : ℤ)
    (h1 : 1 ≤ q) (h5 : q ≤ 5) :
    (updatePhraseReviewRow p q now).ease_factor =
      max 1.3 (p.ease_factor +
        (0.1 - (5 - (q : ℚ)) * (0.08 + (5 - (q : ℚ)) * 0.02))) ∧
    1.3 ≤ (updatePhraseReviewRow p q now).ease_factor :=
  ⟨rfl, le_max_left _ _⟩

/-- Witness for C5 at `samplePhrase`, quality 2 (a failing rating). -/
theorem updatePhraseReview_ease_formula_witness :
    (updatePhraseReviewRow samplePhrase 2 0).ease_factor =
      max 1.3 (samplePhrase.ease_factor +
        (0.1 - (5 - ((2 : ℤ) : ℚ)) * (0.08 + (5 - ((2 : ℤ) : ℚ)) * 0.02))) ∧
    1.3 ≤ (updatePhraseReviewRow samplePhrase 2 0).ease_factor :=
  updatePhraseReview_ease_formula samplePhrase 2 0 (by norm_num) (by norm_num)

/-- C6: for every review update on a valid state (ease factor ≥ 1.3,
interval ≥ 1) with a valid quality rating, the new interval is at least
1, the new next-review timestamp is `now + newInterval * 86400000`
(`now` being the internal clock read at the update), and hence lies
strictly after `now`. -/
theorem updatePhraseReview_nextReview_future (p : PhraseRow) (q now : ℤ)
    (hease : 1.3 ≤ p.ease_factor) (hint : 1 ≤ p.interval)
    (h1 : 1 ≤ q) (h5 : q ≤ 5) :
    1 ≤ (updatePhraseReviewRow p q now).interval ∧
    (updatePhraseReviewRow p q now).next_review =
      now + (updatePhraseReviewRow p q now).interval * 86400000 ∧
    now < (updatePhraseReviewRow p q now).next_review := by
  have hI : 1 ≤ (updatePhraseReviewRow p q now).interval := by
    simp only [updatePhraseReviewRow]
    split_ifs with hq hi1 hi2
    · norm_num
    · norm_num
    · norm_num
    · have h3 : 3 ≤ p.interval := by omega
      have h3q : (3 : ℚ) ≤ (p.interval : ℚ) := by exact_mod_cast h3
      have hmul : (39 : ℚ) / 10 ≤ (p.interval : ℚ) * p.ease_factor := by
        nlinarith
      refine Int.le_floor.mpr ?_
      push_cast
      norm_num
      linarith
  have hnr : (updatePhraseReviewRow p q now).next_review =
      now + (updatePhraseReviewRow p q now).interval * 86400000 := rfl
  refine ⟨hI, hnr, ?_⟩
  rw [hnr]
  omega

/-- Witness for C6 at `samplePhrase`, quality 5. -/
theorem updatePhraseReview_nextReview_future_witness :
    1 ≤ (updatePhraseReviewRow samplePhrase 5 0).interval ∧
    (updatePhraseReviewRow samplePhrase 5 0).next_review =
      0 + (updatePhraseReviewRow samplePhrase 5 0).interval * 86400000 ∧
    (0 : ℤ) < (updatePhraseReviewRow samplePhrase 5 0).next_review :=
  updatePhraseReview_nextReview_future samplePhrase 5 0
    (by norm_num [samplePhrase]) (by norm_num [samplePhrase]) (by norm_num)
    (by norm_num)

/-- C7: the current-streak walk, upon reaching a missing day at a
positive offset, stops and returns the streak accumulated so far; in
particular `currentStreak {today-1, today-3} = 1` (the gap at
`today - 2` stops the walk) and `currentStreak {} = 0`. -/
theorem currentStreak_gap_stops (dates : List ℤ) (today : ℤ)
    (i streak : ℕ) (hi : 0 < i) (hmem : (today - (i : ℤ)) ∉ dates) :
    streakAux dates today i streak = streak ∧
    currentStreak [-1, -3] 0 = 1 ∧ currentStreak [] 0 = 0 := by
  refine ⟨?_, by simp [currentStreak, streakAux],
    by simp [currentStreak, streakAux]⟩
  rw [streakAux]
  have hc : dates.contains (today - (i : ℤ)) = false := by
    simpa using hmem
  split_ifs with h1 h2 h3 <;> simp_all

/-- Witness for C7: the walk on `{-1, -3}` from offset 2 (the gap) with
accumulated streak 1. -/
theorem currentStreak_gap_stops_witness :
    streakAux [-1, -3] 0 2 1 = 1 ∧
    currentStreak [-1, -3] 0 = 1 ∧ currentStreak [] 0 = 0 :=
  currentStreak_gap_stops [-1, -3] 0 2 1 (by norm_num) (by decide)

/-- C8: the review update changes only `ease_factor`, `interval`, and
`next_review`; `created_at`, the text fields (`original`, `translated`,
`pronunciation`) and the row id are carried over unchanged for every
valid input — the SQL `UPDATE` sets exactly the three scheduling
columns. -/
theorem updatePhraseReview_frame (p : PhraseRow) (q now : ℤ)
    (h1 : 1 ≤ q) (h5 : q ≤ 5) :
    (updatePhraseReviewRow p q now).created_at = p.created_at ∧
    (updatePhraseReviewRow p q now).original = p.original ∧
    (updatePhraseReviewRow p q now).translated = p.translated ∧
    (updatePhraseReviewRow p q now).pronunciation = p.pronunciation ∧
    (updatePhraseReviewRow p q now).id = p.id :=
  ⟨rfl, rfl, rfl, rfl, rfl⟩

/-- Witness for C8 at `samplePhrase`, quality 3. -/
theorem updatePhraseReview_frame_witness :
    (updatePhraseReviewRow samplePhrase 3 0).created_at =
        samplePhrase.created_at ∧
    (updatePhraseReviewRow samplePhrase 3 0).original =
        samplePhrase.original ∧
    (updatePhraseReviewRow samplePhrase 3 0).translated =
        samplePhrase.translated ∧
    (updatePhraseReviewRow samplePhrase 3 0).pronunciation =
        samplePhrase.pronunciation ∧
    (updatePhraseReviewRow samplePhrase 3 0).id = samplePhrase.id :=
  updatePhraseReview_frame samplePhrase 3 0 (by norm_num) (by norm_num)

/-- C9: the SQLite-backed and the Supabase-backed `updatePhraseReview`
compute identical scheduling transitions: for every valid previous
ease factor, previous interval, and quality rating, both produce the
same new ease factor and the same new interval. -/
theorem updatePhraseReview_providers_agree (p : PhraseRow) (q now : ℤ)
    (hease : 1.3 ≤ p.ease_factor) (hint : 1 ≤ p.interval)
    (h1 : 1 ≤ q) (h5 : q ≤ 5) :
    (updatePhraseReviewRow p q now).ease_factor =
        (updatePhraseReviewRowWeb p q now).ease_factor ∧
    (updatePhraseReviewRow p q now).interval =
        (updatePhraseReviewRowWeb p q now).interval :=
  ⟨rfl, rfl⟩

/-- Witness for C9 at `samplePhrase`, quality 4. -/
theorem updatePhraseReview_providers_agree_witness :
    (updatePhraseReviewRow samplePhrase 4 0).ease_factor =
        (updatePhraseReviewRowWeb samplePhrase 4 0).ease_factor ∧
    (updatePhraseReviewRow samplePhrase 4 0).interval =
        (updatePhraseReviewRowWeb samplePhrase 4 0).interval :=
  updatePhraseReview_providers_agree samplePhrase 4 0
    (by norm_num [samplePhrase]) (by norm_num [samplePhrase]) (by norm_num)
    (by norm_num)

/-- C10: invoking the review update with an id matching no stored
phrase is a no-op: `SELECT * FROM phrases WHERE id = ?` comes back
empty, the function returns without error, and no `UPDATE` runs, so
every phrase's scheduling state is unchanged. -/
theorem updatePhraseReviewDB_missing_id_noop (table : List PhraseRow)
    (id q now : ℤ) (h : ∀ r ∈ table, r.id ≠ id) :
    updatePhraseReviewDB table id q now = table := by
  have hf : table.filter (fun r => r.id == id) = [] := by
    rw [List.filter_eq_nil_iff]
    intro r hr
    simpa using h r hr
  simp [updatePhraseReviewDB, hf]

/-- Witness for C10: a one-row table whose row has id 1, updated with
the absent id 2. -/
theorem updatePhraseReviewDB_missing_id_noop_witness :
    updatePhraseReviewDB [samplePhrase] 2 3 0 = [samplePhrase] :=
  updatePhraseReviewDB_missing_id_noop [samplePhrase] 2 3 0
    (by
      intro r hr
      rw [List.mem_singleton] at hr
      subst hr
      norm_num [samplePhrase])
